import Mathlib

/-!
# Ampera cabin heater: protocol sequencer, thermistor interpolation, telemetry

Shallow embedding of `src/src/amperaheater.cpp` and `src/include/amperaheater.h`.

* Calls into external collaborators (CAN transport, transceiver mode pin, busy
  delay, PI controller) are recorded as traces, in program order.
* `float` values are read as exact rationals (`ℚ`).
* Unsigned machine integers are natural numbers, reduced modulo `2^w` at the
  places where the C++ converts to a narrower type.
-/

/-- Calls made on the owned `PiControllerFloat tempController` (an external primitive). -/
inductive PiCall where
  | SetMinMaxY (lo hi : ℚ)
  | SetGains (kp ki : ℚ)
  | SetCallingFrequency (hz : ℚ)
  | SetRef (ref : ℚ)
  | Run (input : ℚ)
deriving DecidableEq

/-- Observable effects of the sequencer on its collaborators.
`sw_mode0_Clear` puts the single-wire CAN transceiver in high-voltage (wake-up)
mode, `sw_mode0_Set` puts it in normal mode, `delay` is the busy wait and
`Send canId data len` is `can->Send(canId, data, len)` with the 8-byte buffer
`data` as it is at the moment of the call. -/
inductive Event where
  | sw_mode0_Clear
  | sw_mode0_Set
  | delay
  | Send (canId : Nat) (data : List Nat) (len : Nat)
deriving DecidableEq

/-- A transmitted CAN frame: identifier, the 8-byte buffer handed to `Send`, declared length. -/
structure Frame where
  canId : Nat
  data : List Nat
  len : Nat
deriving DecidableEq

/-- The bytes that go on the wire: the first `len` bytes of the buffer. -/
def Frame.payload (f : Frame) : List Nat := f.data.take f.len

/-- The frames of a trace, in order. -/
def frames : List Event → List Frame
  | [] => []
  | Event.Send canId data len :: es => { canId := canId, data := data, len := len } :: frames es
  | _ :: es => frames es

/-- The transceiver mode changes of a trace, in order. -/
def modeChanges : List Event → List Event
  | [] => []
  | Event.sw_mode0_Clear :: es => Event.sw_mode0_Clear :: modeChanges es
  | Event.sw_mode0_Set :: es => Event.sw_mode0_Set :: modeChanges es
  | _ :: es => modeChanges es

/-- Private members of `class AmperaHeater` (amperaheater.h). -/
structure AmperaHeater where
  tempController : List PiCall
  reportedPower : Nat
  isAwake : Bool
deriving DecidableEq

/-- One heater instance together with the file-scope `static uint8_t ampera_msg_cnt`. -/
structure Machine where
  ampera_msg_cnt : Nat
  heater : AmperaHeater
deriving DecidableEq

namespace AmperaHeater

/-- State after construction: `ampera_msg_cnt=0` (static initialiser), `isAwake=false`
(member initialiser), the controller configured by the constructor, and
`reportedPower` without initialiser, hence an arbitrary 16-bit value. -/
def init (reportedPower : Nat) : Machine :=
  { ampera_msg_cnt := 0
    heater :=
      { tempController :=
          [PiCall.SetMinMaxY 0 6000, PiCall.SetGains 50 5, PiCall.SetCallingFrequency 100]
        reportedPower := reportedPower
        isAwake := false } }

/-- `AmperaHeater::SendWakeup`: HV mode, delay, frame 0x100 with 8 zero bytes, delay, normal mode. -/
def SendWakeup : List Event :=
  let data : List Nat := List.replicate 8 0
  [Event.sw_mode0_Clear, Event.delay, Event.Send 0x100 data 8, Event.delay, Event.sw_mode0_Set]

/-- `AmperaHeater::SetPower(uint16_t power)`: returns the new state and the trace of the call. -/
def SetPower (power : Nat) (m : Machine) : Machine × List Event :=
  if power = 0 then
    ({ m with heater := { m.heater with isAwake := false } }, [])
  else
    let data : List Nat := List.replicate 8 0
    let woken : Machine × List Event :=
      if m.heater.isAwake = false then
        ({ ampera_msg_cnt := 0, heater := { m.heater with isAwake := true } }, SendWakeup)
      else (m, [])
    let m1 := woken.1
    let tr := woken.2
    match m1.ampera_msg_cnt with
    | 0 =>
      let data := data.set 1 0x52
      ({ m1 with ampera_msg_cnt := (m1.ampera_msg_cnt + 1) % 256 },
        tr ++ [Event.sw_mode0_Set, Event.Send 0x621 data 8])
    | 1 =>
      let data := data.set 0 0x41
      ({ m1 with ampera_msg_cnt := (m1.ampera_msg_cnt + 1) % 256 },
        tr ++ [Event.Send 0x102740CB data 3])
    | 2 =>
      let data := data.set 0 0x2
      let data := data.set 1 (power / 48 % 256)
      ({ m1 with ampera_msg_cnt := (m1.ampera_msg_cnt + 1) % 256 },
        tr ++ [Event.Send 0x10720099 data 5])
    | 3 =>
      let data := data.set 0 0x01
      let data := data.set 1 0x01
      let data := data.set 2 0xcf
      let data := data.set 3 0x18
      let data := data.set 4 0x00
      let data := data.set 5 0x51
      let data := data.set 6 0x06
      let data := data.set 7 0x6d
      ({ m1 with ampera_msg_cnt := (m1.ampera_msg_cnt + 1) % 256 },
        tr ++ [Event.Send 0x102CC040 data 8])
    | 4 =>
      ({ m1 with ampera_msg_cnt := (m1.ampera_msg_cnt + 1) % 256 },
        tr ++ [Event.Send 0x13FFE060 data 0])
    | 5 =>
      let data := data.set 0 0x02
      ({ m1 with ampera_msg_cnt := 0 }, tr ++ [Event.Send 0x10242040 data 1])
    | _ => (m1, tr)

/-- The calibration table `lut` of `GetTemperature`. -/
def lut : List Nat :=
  [2950, 2600, 2330, 2070, 1850, 1650, 1470, 1280, 1120, 960, 830, 710, 615, 520, 440, 370, 300]

/-- Constant `tabSize`. -/
def tabSize : Nat := lut.length

/-- Constant `minTemp`. -/
def minTemp : Nat := 0

/-- Constant `maxTemp`. -/
def maxTemp : Nat := 80

/-- Constant `step`. -/
def step : Nat := 5

/-- The `for` loop of `GetTemperature` from iteration `i` on, `rest` being the
table entries not yet visited and `last` the local variable of that name
(`none` while it has not been assigned). The result is `none` where the C++
has no defined rational value: `last` read unassigned, or a zero divisor. -/
def scan (digit : Nat) : Nat → Option Nat → List Nat → Option ℚ
  | _, _, [] => some (maxTemp : ℚ)
  | i, last, cur :: rest =>
    if cur ≤ digit then
      if 0 = i then some (minTemp : ℚ)
      else
        match last with
        | none => none
        | some l =>
          let a : ℚ := (cur : ℤ) - (digit : ℤ)
          let b : ℚ := (cur : ℤ) - (l : ℤ)
          if b = 0 then none
          else
            let c : ℚ := (step : ℚ) * a / b
            let d : ℚ := ((step * i + minTemp : Nat) : ℚ)
            some (d - c)
    else scan digit (i + 1) (some cur) rest

/-- `AmperaHeater::GetTemperature()`, with the sample `AnaIn::temp.Get()` as argument `digit`. -/
def GetTemperature (digit : Nat) : Option ℚ :=
  scan digit 0 none lut

/-- `AmperaHeater::SetTargetTemperature(float temp)`; `digit` is the sample read by
`GetTemperature()`. The body calls `tempController.SetRef`, `GetTemperature()` and
`tempController.Run` and nothing else: no `can->Send`, no `DigIo` access, so the
trace of the call is empty. The computed `power` is a dead local. -/
def SetTargetTemperature (temp : ℚ) (digit : Nat) (m : Machine) :
    Option (Machine × List Event) :=
  match GetTemperature digit with
  | none => none
  | some t =>
    some ({ m with heater :=
      { m.heater with
        tempController := m.heater.tempController ++ [PiCall.SetRef temp, PiCall.Run t] } }, [])

/-- `AmperaHeater::HandleRx(canId, data, dlc)`; `data0`, `_data1` are the two 32-bit
words (`_data1` and `_dlc` are not used by the body), and `bytes[1]` is bits 8..15 of
`data0` (little-endian Cortex-M). -/
def HandleRx (canId : Nat) (data0 _data1 : Nat) (_dlc : Nat) (m : Machine) : Machine :=
  let bytes1 : Nat := data0 / 256 % 256
  if canId = 0x1047809D then
    { m with heater := { m.heater with reportedPower := bytes1 * 48 % 65536 } }
  else m

/-- `AmperaHeater::GetPower()`: `reportedPower` converted to `float` (exact for 16-bit values). -/
def GetPower (m : Machine) : ℚ := (m.heater.reportedPower : ℚ)

/-- States reachable from construction by calls of the public operations with
arguments of their C++ types. -/
inductive Reachable : Machine → Prop where
  | init (reportedPower : Nat) (h : reportedPower < 65536) : Reachable (init reportedPower)
  | setPower (m : Machine) (power : Nat) (h : power < 65536) (hm : Reachable m) :
      Reachable (SetPower power m).1
  | setTargetTemperature (m : Machine) (r : Machine × List Event) (temp : ℚ) (digit : Nat)
      (h : digit < 65536) (hm : Reachable m)
      (hcall : SetTargetTemperature temp digit m = some r) : Reachable r.1
  | handleRx (m : Machine) (canId data0 data1 dlc : Nat) (hm : Reachable m) :
      Reachable (HandleRx canId data0 data1 dlc m)

/-- The sequence of `SetPower` calls with the given powers: final state and the trace of each call. -/
def runSetPower : List Nat → Machine → Machine × List (List Event)
  | [], m => (m, [])
  | power :: ps, m =>
    let r := SetPower power m
    let rs := runSetPower ps r.1
    (rs.1, r.2 :: rs.2)

/-- Row `n` of the six-step table as the specification lists it:
identifier, declared length and the payload bytes. -/
def specCycleRow (power : Nat) : Nat → Option (Nat × Nat × List Nat)
  | 0 => some (0x621, 8, [0x00, 0x52, 0x00, 0x00, 0x00, 0x00, 0x00, 0x00])
  | 1 => some (0x102740CB, 3, [0x41, 0x00, 0x00])
  | 2 => some (0x10720099, 5, [0x02, power / 48 % 256, 0x00, 0x00, 0x00])
  | 3 => some (0x102CC040, 8, [0x01, 0x01, 0xCF, 0x18, 0x00, 0x51, 0x06, 0x6D])
  | 4 => some (0x13FFE060, 0, [])
  | 5 => some (0x10242040, 1, [0x02])
  | _ => none

/-- The frame identifiers of each call of a run, flattened in order of emission. -/
def frameIds (trs : List (List Event)) : List Nat :=
  (trs.map (fun tr => (frames tr).map Frame.canId)).flatten

/-- The six identifiers of the command cycle, in cycle order. -/
def cycleIds : List Nat :=
  [0x621, 0x102740CB, 0x10720099, 0x102CC040, 0x13FFE060, 0x10242040]

/-- Inputs read by one run of `Ms100Task` (main.cpp): `Param::maxpower`, the
scheduler's CPU load, `Param::targetemp`, and the three `AnaIn::temp.Get()`
samples (inside `SetTargetTemperature`, for `Param::tempraw`, and inside the
direct `GetTemperature()` call). -/
structure TaskInput where
  maxpower : Int
  cpuLoad : ℚ
  targetemp : ℚ
  digit1 : Nat
  digit2 : Nat
  digit3 : Nat

/-- Effects of `Ms100Task` (main.cpp) on its collaborators. `heater e` is an
effect of the heater object on its own CAN interface or transceiver pin;
`canMap_SendAll` is the parameter map transmitting on the other interface. -/
inductive TaskEvent where
  | led_out_Toggle
  | iwdg_reset
  | Param_SetFloat_cpuload (v : ℚ)
  | heater (e : Event)
  | pump_Set
  | pump_Clear
  | Param_SetInt_tempraw (v : Nat)
  | Param_SetFloat_temperature (v : ℚ)
  | Param_SetFloat_power (v : ℚ)
  | canMap_SendAll
deriving DecidableEq

/-- The heater effects of a task trace, in order. -/
def heaterEvents : List TaskEvent → List Event
  | [] => []
  | TaskEvent.heater e :: es => e :: heaterEvents es
  | _ :: es => heaterEvents es

/-- `Ms100Task` of main.cpp. The call `heater->SetPower(power)` is commented out
in the source; the task calls `SetTargetTemperature`, `GetTemperature` and
`GetPower` on the heater. -/
def Ms100Task (inp : TaskInput) (m : Machine) : Option (Machine × List TaskEvent) :=
  match SetTargetTemperature inp.targetemp inp.digit1 m with
  | none => none
  | some r =>
    match GetTemperature inp.digit3 with
    | none => none
    | some t =>
      some (r.1,
        [TaskEvent.led_out_Toggle, TaskEvent.iwdg_reset,
            TaskEvent.Param_SetFloat_cpuload (inp.cpuLoad / 10)]
          ++ r.2.map TaskEvent.heater
          ++ [if inp.maxpower > 500 then TaskEvent.pump_Set else TaskEvent.pump_Clear,
              TaskEvent.Param_SetInt_tempraw inp.digit2,
              TaskEvent.Param_SetFloat_temperature t,
              TaskEvent.Param_SetFloat_power (GetPower r.1),
              TaskEvent.canMap_SendAll])

/-- Consecutive runs of `Ms100Task`, one per input: final state and the whole trace. -/
def runMs100Task : List TaskInput → Machine → Option (Machine × List TaskEvent)
  | [], m => some (m, [])
  | inp :: rest, m =>
    match Ms100Task inp m with
    | none => none
    | some r =>
      match runMs100Task rest r.1 with
      | none => none
      | some rs => some (rs.1, r.2 ++ rs.2)

/-- Two heater instances `a` and `b` in one program. `ampera_msg_cnt` is a
file-scope static of amperaheater.cpp, so there is one counter for both;
`isAwake`, `reportedPower` and `tempController` are members of each instance. -/
structure TwoHeaters where
  ampera_msg_cnt : Nat
  a : AmperaHeater
  b : AmperaHeater
deriving DecidableEq

/-- Two instances right after construction. -/
def initTwo (reportedPowerA reportedPowerB : Nat) : TwoHeaters :=
  { ampera_msg_cnt := 0
    a := (init reportedPowerA).heater
    b := (init reportedPowerB).heater }

/-- `a.SetPower(power)`: the method body run on instance `a` and the shared counter. -/
def SetPowerOnA (power : Nat) (w : TwoHeaters) : TwoHeaters × List Event :=
  let r := SetPower power { ampera_msg_cnt := w.ampera_msg_cnt, heater := w.a }
  ({ ampera_msg_cnt := r.1.ampera_msg_cnt, a := r.1.heater, b := w.b }, r.2)

/-- `b.SetPower(power)`: the method body run on instance `b` and the shared counter. -/
def SetPowerOnB (power : Nat) (w : TwoHeaters) : TwoHeaters × List Event :=
  let r := SetPower power { ampera_msg_cnt := w.ampera_msg_cnt, heater := w.b }
  ({ ampera_msg_cnt := r.1.ampera_msg_cnt, a := w.a, b := r.1.heater }, r.2)

/-! ## Protocol sequencer -/

/-- `SetPower` keeps the counter inside the six cases of its `switch`. -/
theorem SetPower_cnt_lt (power : Nat) (m : Machine) (h : m.ampera_msg_cnt < 6) :
    (SetPower power m).1.ampera_msg_cnt < 6 := by
  obtain ⟨cnt, ht⟩ := m
  simp only at h
  by_cases hp : power = 0
  · simp [SetPower, hp, h]
  · by_cases ha : ht.isAwake = false
    · simp [SetPower, hp, ha]
    · interval_cases cnt <;> simp [SetPower, hp, ha]

/-- In every reachable state the counter is one of 0..5. -/
theorem Reachable.cnt_lt {m : Machine} (hr : Reachable m) : m.ampera_msg_cnt < 6 := by
  induction hr with
  | init rp _ => simp [AmperaHeater.init]
  | setPower m power _ _ ih => exact SetPower_cnt_lt power m ih
  | setTargetTemperature m r temp digit _ _ hcall ih =>
    unfold SetTargetTemperature at hcall
    split at hcall
    · cases hcall
    · cases hcall
      exact ih
  | handleRx m canId data0 data1 dlc _ ih =>
    unfold HandleRx
    split <;> exact ih

/-- C1. A non-zero `SetPower` call on a heater that is not awake, whatever the
stored counter: the trace is HV mode, delay, the wake frame (0x100, 8 zero
bytes), delay, normal mode, then step 0 (normal mode asserted again, frame
0x621 with payload 00 52 00 00 00 00 00 00); these two are the only frames;
afterwards the heater is awake and the counter is 1, nothing else changed. -/
theorem SetPower_wake (power : Nat) (m : Machine) (hp : power ≠ 0) (_h16 : power < 65536)
    (hs : m.heater.isAwake = false) :
    (SetPower power m).2 =
        [Event.sw_mode0_Clear, Event.delay, Event.Send 0x100 [0, 0, 0, 0, 0, 0, 0, 0] 8,
          Event.delay, Event.sw_mode0_Set,
          Event.sw_mode0_Set, Event.Send 0x621 [0, 0x52, 0, 0, 0, 0, 0, 0] 8]
      ∧ frames (SetPower power m).2 =
        [{ canId := 0x100, data := [0, 0, 0, 0, 0, 0, 0, 0], len := 8 },
          { canId := 0x621, data := [0, 0x52, 0, 0, 0, 0, 0, 0], len := 8 }]
      ∧ (SetPower power m).1 =
        { ampera_msg_cnt := 1, heater := { m.heater with isAwake := true } } := by
  simp [SetPower, hp, hs, SendWakeup, frames]

/-- Witness for C1: power 1440 on the state after construction, and on a state
put to sleep at counter 3. -/
theorem SetPower_wake_witness :
    (SetPower 1440 (init 0)).2 =
        [Event.sw_mode0_Clear, Event.delay, Event.Send 0x100 [0, 0, 0, 0, 0, 0, 0, 0] 8,
          Event.delay, Event.sw_mode0_Set,
          Event.sw_mode0_Set, Event.Send 0x621 [0, 0x52, 0, 0, 0, 0, 0, 0] 8]
      ∧ frames (SetPower 1440 (init 0)).2 =
        [{ canId := 0x100, data := [0, 0, 0, 0, 0, 0, 0, 0], len := 8 },
          { canId := 0x621, data := [0, 0x52, 0, 0, 0, 0, 0, 0], len := 8 }]
      ∧ (SetPower 1440 (init 0)).1 =
        { ampera_msg_cnt := 1, heater := { (init 0).heater with isAwake := true } } :=
  SetPower_wake 1440 (init 0) (by decide) (by decide) rfl

/-- C2. A non-zero `SetPower` call in a reachable awake state with counter `n`
emits exactly one frame, which is not the wake frame and is row `n` of the
six-step table (identifier, length, payload bytes); afterwards the heater is
still awake, the counter is `(n + 1) mod 6` and nothing else changed. -/
theorem SetPower_awake_step (power n : Nat) (m : Machine) (hr : Reachable m) (hp : power ≠ 0)
    (_h16 : power < 65536) (ha : m.heater.isAwake = true) (hn : m.ampera_msg_cnt = n) :
    ∃ f : Frame,
      frames (SetPower power m).2 = [f]
        ∧ f.canId ≠ 0x100
        ∧ specCycleRow power n = some (f.canId, f.len, f.payload)
        ∧ (SetPower power m).1 = { m with ampera_msg_cnt := (n + 1) % 6 }
        ∧ (SetPower power m).1.heater.isAwake = true := by
  have hlt := hr.cnt_lt
  obtain ⟨cnt, ht⟩ := m
  simp only at hn ha hlt
  subst hn
  interval_cases cnt <;>
    simp [SetPower, hp, ha, frames, specCycleRow, Frame.payload]

/-- Witness for C2: the state after one wake-up call, counter 1, power 1440. -/
theorem SetPower_awake_step_witness :
    ∃ f : Frame,
      frames (SetPower 1440 (SetPower 100 (init 0)).1).2 = [f]
        ∧ f.canId ≠ 0x100
        ∧ specCycleRow 1440 1 = some (f.canId, f.len, f.payload)
        ∧ (SetPower 1440 (SetPower 100 (init 0)).1).1
            = { (SetPower 100 (init 0)).1 with ampera_msg_cnt := (1 + 1) % 6 }
        ∧ (SetPower 1440 (SetPower 100 (init 0)).1).1.heater.isAwake = true :=
  SetPower_awake_step 1440 1 (SetPower 100 (init 0)).1
    (Reachable.setPower (init 0) 100 (by decide) (Reachable.init 0 (by decide)))
    (by decide) (by decide) rfl rfl

/-- C3. `SetPower(0)` in any state has an empty trace (no frame, no transceiver
mode change, no delay), leaves the heater not awake and leaves the counter and
everything else as it was. -/
theorem SetPower_zero (m : Machine) :
    (SetPower 0 m).2 = []
      ∧ frames (SetPower 0 m).2 = []
      ∧ modeChanges (SetPower 0 m).2 = []
      ∧ (SetPower 0 m).1.heater.isAwake = false
      ∧ (SetPower 0 m).1.ampera_msg_cnt = m.ampera_msg_cnt
      ∧ (SetPower 0 m).1 = { m with heater := { m.heater with isAwake := false } } := by
  simp [SetPower, frames, modeChanges]

/-- C4. From the state after construction, seven `SetPower` calls with non-zero
powers emit, call by call, the frame identifiers 0x100 then 0x621; 0x102740CB;
0x10720099; 0x102CC040; 0x13FFE060; 0x10242040; 0x621. The wake frame and the
switch to high-voltage mode occur in the first call only. -/
theorem cycle_trace (ps : List Nat) (reportedPower : Nat) (hlen : ps.length = 7)
    (hnz : ∀ p ∈ ps, p ≠ 0 ∧ p < 65536) :
    (runSetPower ps (init reportedPower)).2.map (fun tr => (frames tr).map Frame.canId)
        = [[0x100, 0x621], [0x102740CB], [0x10720099], [0x102CC040], [0x13FFE060],
            [0x10242040], [0x621]]
      ∧ (runSetPower ps (init reportedPower)).2.map modeChanges
        = [[Event.sw_mode0_Clear, Event.sw_mode0_Set, Event.sw_mode0_Set], [], [], [], [], [],
            [Event.sw_mode0_Set]] := by
  match ps, hlen, hnz with
  | [p1, p2, p3, p4, p5, p6, p7], _, hnz =>
    have h1 : p1 ≠ 0 := (hnz p1 (by simp)).1
    have h2 : p2 ≠ 0 := (hnz p2 (by simp)).1
    have h3 : p3 ≠ 0 := (hnz p3 (by simp)).1
    have h4 : p4 ≠ 0 := (hnz p4 (by simp)).1
    have h5 : p5 ≠ 0 := (hnz p5 (by simp)).1
    have h6 : p6 ≠ 0 := (hnz p6 (by simp)).1
    have h7 : p7 ≠ 0 := (hnz p7 (by simp)).1
    simp [runSetPower, SetPower, init, SendWakeup, frames, modeChanges, h1, h2, h3, h4, h5, h6, h7]

/-- Witness for C4: powers 1440, 600, 1, 65535, 48, 6000, 12288 and `reportedPower` 0. -/
theorem cycle_trace_witness :
    (runSetPower [1440, 600, 1, 65535, 48, 6000, 12288] (init 0)).2.map
          (fun tr => (frames tr).map Frame.canId)
        = [[0x100, 0x621], [0x102740CB], [0x10720099], [0x102CC040], [0x13FFE060],
            [0x10242040], [0x621]]
      ∧ (runSetPower [1440, 600, 1, 65535, 48, 6000, 12288] (init 0)).2.map modeChanges
        = [[Event.sw_mode0_Clear, Event.sw_mode0_Set, Event.sw_mode0_Set], [], [], [], [], [],
            [Event.sw_mode0_Set]] :=
  cycle_trace [1440, 600, 1, 65535, 48, 6000, 12288] 0 rfl (by decide)

/-- C5. A non-zero `SetPower` call made while awake with counter 2 emits exactly
one frame: identifier 0x10720099, length 5, payload 02, `(power / 48) mod 256`,
00, 00, 00; for `power = 1440` the second byte is 30 = 0x1E. -/
theorem SetPower_control_frame (m : Machine) (ha : m.heater.isAwake = true)
    (hn : m.ampera_msg_cnt = 2) :
    (∀ power : Nat, power ≠ 0 → power < 65536 →
        frames (SetPower power m).2
            = [{ canId := 0x10720099, data := [0x02, power / 48 % 256, 0, 0, 0, 0, 0, 0], len := 5 }]
          ∧ (frames (SetPower power m).2).map Frame.payload
            = [[0x02, power / 48 % 256, 0, 0, 0]])
      ∧ (frames (SetPower 1440 m).2).map Frame.payload = [[0x02, 0x1E, 0, 0, 0]] := by
  obtain ⟨cnt, ht⟩ := m
  simp only at hn ha
  subst hn
  refine ⟨fun power hp _ => ?_, ?_⟩
  · simp [SetPower, hp, ha, frames, Frame.payload]
  · simp [SetPower, ha, frames, Frame.payload]

/-- Witness for C5: the state reached after wake-up and one further call (counter 2). -/
theorem SetPower_control_frame_witness :
    (∀ power : Nat, power ≠ 0 → power < 65536 →
        frames (SetPower power (SetPower 7 (SetPower 100 (init 0)).1).1).2
            = [{ canId := 0x10720099, data := [0x02, power / 48 % 256, 0, 0, 0, 0, 0, 0], len := 5 }]
          ∧ (frames (SetPower power (SetPower 7 (SetPower 100 (init 0)).1).1).2).map Frame.payload
            = [[0x02, power / 48 % 256, 0, 0, 0]])
      ∧ (frames (SetPower 1440 (SetPower 7 (SetPower 100 (init 0)).1).1).2).map Frame.payload
          = [[0x02, 0x1E, 0, 0, 0]] :=
  SetPower_control_frame (SetPower 7 (SetPower 100 (init 0)).1).1 rfl rfl

/-! ## Thermistor interpolation -/

/-- One iteration whose threshold is above the sample: assign `last`, go on. -/
theorem scan_cons_gt (digit i cur : Nat) (last : Option Nat) (rest : List Nat)
    (h : digit < cur) :
    scan digit i last (cur :: rest) = scan digit (i + 1) (some cur) rest := by
  have hc : ¬ cur ≤ digit := Nat.not_le.mpr h
  simp only [scan, hc, if_false]

/-- A sample below every remaining threshold runs the loop to its end: `maxTemp`. -/
theorem scan_below (digit : Nat) :
    ∀ (xs : List Nat) (i : Nat) (last : Option Nat), (∀ x ∈ xs, digit < x) →
      scan digit i last xs = some (maxTemp : ℚ) := by
  intro xs
  induction xs with
  | nil => intro i last _; simp [scan]
  | cons cur rest ih =>
    intro i last h
    have hc : ¬ cur ≤ digit := Nat.not_le.mpr (h cur (by simp))
    simp only [scan, hc, if_false]
    exact ih (i + 1) (some cur) (fun x hx => h x (by simp [hx]))

/-- The loop entered at iteration `i ≠ 0` with `last = l` returns at the first
entry `k` of the remaining table that is `≤ digit`, with the interpolated value. -/
theorem scan_at (digit : Nat) :
    ∀ (xs : List Nat) (i l k : Nat), i ≠ 0 → k < xs.length →
      (∀ j, j < k → digit < xs.getD j 0) → xs.getD k 0 ≤ digit →
      xs.getD k 0 ≠ (l :: xs).getD k 0 →
      scan digit i (some l) xs
        = some (((step * (i + k) + minTemp : Nat) : ℚ)
            - (step : ℚ) * ((xs.getD k 0 : ℚ) - (digit : ℚ))
                / ((xs.getD k 0 : ℚ) - ((l :: xs).getD k 0 : ℚ))) := by
  intro xs
  induction xs with
  | nil => intro i l k _ hk; simp at hk
  | cons cur rest ih =>
    intro i l k hi hk hlt hle hne
    cases k with
    | zero =>
      simp only [List.getD_cons_zero] at hle hne
      have hb : ((cur : ℚ) - (l : ℚ)) ≠ 0 := by
        intro h
        exact hne (by exact_mod_cast sub_eq_zero.mp h)
      have hi0 : ¬ (0 = i) := fun h => hi h.symm
      simp [scan, hle, hi0, hb]
    | succ k =>
      have h0 : digit < cur := by simpa using hlt 0 (Nat.succ_pos k)
      have hc : ¬ cur ≤ digit := Nat.not_le.mpr h0
      simp only [List.getD_cons_succ] at hle hne
      simp only [scan, hc, if_false, List.getD_cons_succ]
      have := ih (i + 1) cur k (Nat.succ_ne_zero i) (by simpa using hk)
        (fun j hj => by simpa using hlt (j + 1) (Nat.succ_lt_succ hj)) hle hne
      rw [this]
      congr 3
      ring

/-- The table with its first entry split off. -/
theorem lut_eq :
    lut = 2950 :: [2600, 2330, 2070, 1850, 1650, 1470, 1280, 1120, 960, 830, 710, 615, 520,
      440, 370, 300] := rfl

/-- For a sample below the first threshold, the least index `i` with
`lut[i] ≤ r` is at least 1, `r` is below `lut[i-1]`, and `GetTemperature`
returns the interpolated value of that bracket. -/
theorem GetTemperature_of_least (r i : Nat) (h2 : r < 2950) (hi : i < tabSize)
    (hle : lut.getD i 0 ≤ r) (hleast : ∀ j, j < i → r < lut.getD j 0) :
    1 ≤ i ∧ r < lut.getD (i - 1) 0 ∧
      GetTemperature r
        = some ((i : ℚ) * 5
            - 5 * ((lut.getD i 0 : ℚ) - (r : ℚ)) / ((lut.getD i 0 : ℚ) - (lut.getD (i - 1) 0 : ℚ))) := by
  cases i with
  | zero =>
    exfalso
    simp [lut] at hle
    omega
  | succ k =>
    have hprev : r < lut.getD k 0 := hleast k (Nat.lt_succ_self k)
    refine ⟨Nat.succ_pos k, by simpa using hprev, ?_⟩
    simp only [Nat.add_sub_cancel]
    unfold GetTemperature
    rw [lut_eq] at hle hleast hprev ⊢
    simp only [List.getD_cons_succ] at hle
    simp only [List.getD_cons_succ]
    have hk : k < 16 := by
      simp [tabSize, lut] at hi
      omega
    rw [scan_cons_gt r 0 2950 none _ h2, scan_at r _ (0 + 1) 2950 k (by decide) (by simpa using hk)
      (fun j hj => by simpa using hleast (j + 1) (Nat.succ_lt_succ hj)) hle (by omega)]
    congr 1
    simp only [step, minTemp]
    push_cast
    ring

/-- Every sample at or above the last threshold has a least table index whose
threshold is `≤` the sample. -/
theorem least_index_exists (r : Nat) (h1 : 300 ≤ r) :
    ∃ i, i < tabSize ∧ lut.getD i 0 ≤ r ∧ ∀ j, j < i → r < lut.getD j 0 := by
  have hex : ∃ i, lut.getD i 0 ≤ r := ⟨16, by simpa [lut] using h1⟩
  refine ⟨Nat.find hex, ?_, Nat.find_spec hex, fun j hj => Nat.not_le.mp (Nat.find_min hex hj)⟩
  have h16 : Nat.find hex ≤ 16 := Nat.find_min' hex (by simpa [lut] using h1)
  have ht : tabSize = 17 := rfl
  rw [ht]
  omega

/-- Linear interpolation inside a bracket `cur ≤ r < last` stays in `(5(i-1), 5i]`. -/
theorem interpolation_bounds (i cur last r : ℚ) (h1 : cur ≤ r) (h2 : r < last) :
    (i - 1) * 5 < i * 5 - 5 * (cur - r) / (cur - last)
      ∧ i * 5 - 5 * (cur - r) / (cur - last) ≤ i * 5 := by
  have hb : cur - last < 0 := by linarith
  have hx0 : 0 ≤ (cur - r) / (cur - last) :=
    div_nonneg_of_nonpos (by linarith) (le_of_lt hb)
  have hx1 : (cur - r) / (cur - last) < 1 := (div_lt_one_of_neg hb).mpr (by linarith)
  rw [mul_div_assoc]
  constructor <;> linarith

/-- Inside one bracket the interpolated value does not increase with the sample. -/
theorem interpolation_antitone (i cur last a b : ℚ) (hab : a ≤ b) (hb : cur < last) :
    i * 5 - 5 * (cur - b) / (cur - last) ≤ i * 5 - 5 * (cur - a) / (cur - last) := by
  have hneg : cur - last < 0 := by linarith
  have h : (cur - a) / (cur - last) ≤ (cur - b) / (cur - last) :=
    div_le_div_of_nonpos_of_le (le_of_lt hneg) (by linarith)
  rw [mul_div_assoc, mul_div_assoc]
  linarith

/-- C6. For a sample `r` with `300 ≤ r < 2950` a least table index `i` with
`lut[i] ≤ r` exists, and for that index, with `cur = lut[i]` and
`last = lut[i-1]`: `1 ≤ i ≤ 16`, `GetTemperature` returns
`i*5 - 5*(cur - r)/(cur - last)` in exact rational arithmetic, and this value
lies in `((i-1)*5, i*5]`. -/
theorem GetTemperature_interpolation (r : Nat) (h1 : 300 ≤ r) (h2 : r < 2950) :
    (∃ i, i < tabSize ∧ lut.getD i 0 ≤ r ∧ ∀ j, j < i → r < lut.getD j 0)
      ∧ ∀ i, i < tabSize → lut.getD i 0 ≤ r → (∀ j, j < i → r < lut.getD j 0) →
        1 ≤ i ∧ i ≤ 16 ∧
          ∃ t : ℚ, GetTemperature r = some t
            ∧ t = (i : ℚ) * 5
                - 5 * ((lut.getD i 0 : ℚ) - (r : ℚ))
                    / ((lut.getD i 0 : ℚ) - (lut.getD (i - 1) 0 : ℚ))
            ∧ ((i : ℚ) - 1) * 5 < t ∧ t ≤ (i : ℚ) * 5 := by
  refine ⟨least_index_exists r h1, fun i hi hle hleast => ?_⟩
  obtain ⟨hge, hprev, hval⟩ := GetTemperature_of_least r i h2 hi hle hleast
  have hi16 : i ≤ 16 := by
    simp [tabSize, lut] at hi
    omega
  refine ⟨hge, hi16, _, hval, rfl, ?_⟩
  exact interpolation_bounds (i : ℚ) (lut.getD i 0 : ℚ) (lut.getD (i - 1) 0 : ℚ) (r : ℚ)
    (by exact_mod_cast hle) (by exact_mod_cast hprev)

/-- Witness for C6: the sample 2775 lies in the first bracket (`i = 1`). -/
theorem GetTemperature_interpolation_witness :
    (∃ i, i < tabSize ∧ lut.getD i 0 ≤ 2775 ∧ ∀ j, j < i → 2775 < lut.getD j 0)
      ∧ ∀ i, i < tabSize → lut.getD i 0 ≤ 2775 → (∀ j, j < i → 2775 < lut.getD j 0) →
        1 ≤ i ∧ i ≤ 16 ∧
          ∃ t : ℚ, GetTemperature 2775 = some t
            ∧ t = (i : ℚ) * 5
                - 5 * ((lut.getD i 0 : ℚ) - ((2775 : Nat) : ℚ))
                    / ((lut.getD i 0 : ℚ) - (lut.getD (i - 1) 0 : ℚ))
            ∧ ((i : ℚ) - 1) * 5 < t ∧ t ≤ (i : ℚ) * 5 :=
  GetTemperature_interpolation 2775 (by decide) (by decide)

/-- C7. A sample at or above the first threshold 2950 gives exactly 0, a sample
below the last threshold 300 gives exactly 80; so 2950 gives 0 and 250 gives 80. -/
theorem GetTemperature_boundary (r : Nat) :
    (2950 ≤ r → GetTemperature r = some 0) ∧ (r < 300 → GetTemperature r = some 80) := by
  constructor
  · intro h
    simp [GetTemperature, lut, scan, h, minTemp]
  · intro h
    have := scan_below r lut 0 none (fun x hx => by simp [lut] at hx; omega)
    simpa [GetTemperature, maxTemp] using this

/-- Witness for C7: the samples 2950 and 250. -/
theorem GetTemperature_boundary_witness :
    GetTemperature 2950 = some 0 ∧ GetTemperature 250 = some 80 :=
  ⟨(GetTemperature_boundary 2950).1 (by decide), (GetTemperature_boundary 250).2 (by decide)⟩

/-- C8. For samples `a ≤ b` strictly inside the table range (`300 < a`,
`b < 2950`), `GetTemperature` returns a value for both and the value at `b` is
at most the value at `a`, in exact rational arithmetic, whether or not `a` and
`b` share a bracket. -/
theorem GetTemperature_antitone (a b : Nat) (hab : a ≤ b) (ha : 300 < a) (hb : b < 2950) :
    ∃ ta tb : ℚ, GetTemperature a = some ta ∧ GetTemperature b = some tb ∧ tb ≤ ta := by
  obtain ⟨ia, hia, hlea, hleasta⟩ := least_index_exists a (le_of_lt ha)
  obtain ⟨ib, hib, hleb, hleastb⟩ := least_index_exists b (by omega)
  obtain ⟨hgea, hpreva, hvala⟩ := GetTemperature_of_least a ia (by omega) hia hlea hleasta
  obtain ⟨hgeb, hprevb, hvalb⟩ := GetTemperature_of_least b ib hb hib hleb hleastb
  refine ⟨_, _, hvala, hvalb, ?_⟩
  have hle : ib ≤ ia := by
    by_contra hcon
    have := hleastb ia (Nat.not_le.mp hcon)
    omega
  have hbnda := interpolation_bounds (ia : ℚ) (lut.getD ia 0 : ℚ) (lut.getD (ia - 1) 0 : ℚ)
    (a : ℚ) (by exact_mod_cast hlea) (by exact_mod_cast hpreva)
  have hbndb := interpolation_bounds (ib : ℚ) (lut.getD ib 0 : ℚ) (lut.getD (ib - 1) 0 : ℚ)
    (b : ℚ) (by exact_mod_cast hleb) (by exact_mod_cast hprevb)
  rcases Nat.eq_or_lt_of_le hle with heq | hlt
  · subst heq
    exact interpolation_antitone (ib : ℚ) (lut.getD ib 0 : ℚ) (lut.getD (ib - 1) 0 : ℚ)
      (a : ℚ) (b : ℚ) (by exact_mod_cast hab) (by exact_mod_cast (lt_of_le_of_lt hlea hpreva))
  · have hq : (ib : ℚ) + 1 ≤ (ia : ℚ) := by exact_mod_cast hlt
    have h5 : (ib : ℚ) * 5 ≤ ((ia : ℚ) - 1) * 5 := by linarith
    linarith [hbnda.1, hbndb.2]

/-- Witness for C8: the samples 2599 and 2601 lie in different brackets. -/
theorem GetTemperature_antitone_witness :
    ∃ ta tb : ℚ, GetTemperature 2599 = some ta ∧ GetTemperature 2601 = some tb ∧ tb ≤ ta :=
  GetTemperature_antitone 2599 2601 (by decide) (by decide) (by decide)

/-- The sample 300 is the last threshold itself: the loop returns in its last
iteration with a zero interpolation term. -/
theorem GetTemperature_at_300 : GetTemperature 300 = some 80 := by
  obtain ⟨_, _, h⟩ := GetTemperature_of_least 300 16 (by decide) (by decide)
    (by simp [lut]) (fun j hj => by
      have : ∀ k, k < 16 → 300 < lut.getD k 0 := by decide
      exact this j hj)
  rw [h]
  norm_num [lut]

/-- C9, as stated, fails: `GetTemperature` at the sample 300 is not strictly
between 75 and 80. -/
theorem GetTemperature_300_not_strictly_inside :
    ¬ ∃ t : ℚ, GetTemperature 300 = some t ∧ 75 < t ∧ t < 80 := by
  rintro ⟨t, ht, _, hlt⟩
  rw [GetTemperature_at_300] at ht
  cases ht
  exact absurd hlt (by norm_num)

/-- C9, amended. `GetTemperature` at the sample 300 is interpolated in the last
bracket (`i = 16`, `cur = 300`, `last = 370`) with a zero interpolation term, so
it is exactly 80: above 75 and at most, not below, 80. -/
theorem GetTemperature_300_last_bracket :
    ∃ t : ℚ, GetTemperature 300 = some t
      ∧ lut.getD 16 0 = 300 ∧ lut.getD 15 0 = 370
      ∧ t = (16 : ℚ) * 5 - 5 * ((300 : ℚ) - 300) / ((300 : ℚ) - 370)
      ∧ t = 80 ∧ 75 < t ∧ t ≤ 80 := by
  refine ⟨80, GetTemperature_at_300, rfl, rfl, ?_, rfl, ?_, le_refl _⟩ <;> norm_num

/-! ## Telemetry decoder -/

/-- C10. `HandleRx` on a frame whose byte 1 (bits 8..15 of the first data word) is
`b`: with identifier 0x1047809D the stored `reportedPower` is `48 * b`, below
`2^16`, and `GetPower` returns `48 * b`; with any other identifier the state,
hence `GetPower`, is unchanged. -/
theorem HandleRx_telemetry (m : Machine) (canId data0 data1 dlc b : Nat)
    (hb : data0 / 256 % 256 = b) :
    (canId = 0x1047809D →
        (HandleRx canId data0 data1 dlc m).heater.reportedPower = 48 * b
          ∧ 48 * b < 65536
          ∧ GetPower (HandleRx canId data0 data1 dlc m) = 48 * (b : ℚ))
      ∧ (canId ≠ 0x1047809D →
        HandleRx canId data0 data1 dlc m = m
          ∧ GetPower (HandleRx canId data0 data1 dlc m) = GetPower m) := by
  have hlt : b < 256 := by omega
  constructor
  · intro hid
    have hmod : b * 48 % 65536 = 48 * b := by omega
    refine ⟨?_, by omega, ?_⟩
    · simp [HandleRx, hid, hb, hmod]
    · simp [HandleRx, GetPower, hid, hb, hmod]
  · intro hid
    simp [HandleRx, hid]

/-- Witness for C10: byte 1 equal to 8 gives 384; a frame with identifier 0x621
leaves the state as it is. -/
theorem HandleRx_telemetry_witness :
    GetPower (HandleRx 0x1047809D 0x0800 0 3 (init 0)) = 48 * ((8 : Nat) : ℚ)
      ∧ GetPower (HandleRx 0x1047809D 0x0800 0 3 (init 0)) = 384
      ∧ HandleRx 0x621 0x0800 0 3 (init 0) = init 0 := by
  have h1 := (HandleRx_telemetry (init 0) 0x1047809D 0x0800 0 3 8 (by decide)).1 rfl
  have h2 := (HandleRx_telemetry (init 0) 0x621 0x0800 0 3 8 (by decide)).2 (by decide)
  refine ⟨h1.2.2, ?_, h2.1⟩
  rw [h1.2.2]
  norm_num

/-! ## Further properties of the sequencer, the regulator and the decoder -/

/-- `SetPower` never writes `reportedPower`. -/
theorem SetPower_reportedPower (power : Nat) (m : Machine) :
    (SetPower power m).1.heater.reportedPower = m.heater.reportedPower := by
  unfold SetPower
  split
  · rfl
  · split_ifs
    · rfl
    · dsimp only
      split <;> rfl

/-- `SetPower` never writes `tempController`. -/
theorem SetPower_tempController (power : Nat) (m : Machine) :
    (SetPower power m).1.heater.tempController = m.heater.tempController := by
  unfold SetPower
  split
  · rfl
  · split_ifs
    · rfl
    · dsimp only
      split <;> rfl

/-- C11. In the control frame sent at counter 2 the power byte `byte` is below
256; it equals `power / 48` exactly when `power / 48 ≤ 255`, that is when
`power ≤ 12287`; when `power / 48 > 255` it is `power / 48 - 256 * k` for some
`k ≥ 1` and differs from `power / 48`; it is not clamped (12288 gives 0). -/
theorem control_byte_wrap (m : Machine) (power : Nat) (ha : m.heater.isAwake = true)
    (hn : m.ampera_msg_cnt = 2) (hp : power ≠ 0) (_h16 : power < 65536) :
    ∃ byte : Nat,
      frames (SetPower power m).2
          = [{ canId := 0x10720099, data := [0x02, byte, 0, 0, 0, 0, 0, 0], len := 5 }]
        ∧ byte < 256
        ∧ (byte = power / 48 ↔ power / 48 ≤ 255)
        ∧ (power / 48 ≤ 255 ↔ power ≤ 12287)
        ∧ (255 < power / 48 →
            (∃ k : Nat, 1 ≤ k ∧ byte + 256 * k = power / 48) ∧ byte ≠ power / 48)
        ∧ (power = 12288 → byte = 0) := by
  obtain ⟨cnt, ht⟩ := m
  simp only at hn ha
  subst hn
  refine ⟨power / 48 % 256, ?_, ?_, ?_, ?_, ?_, ?_⟩
  · simp [SetPower, hp, ha, frames]
  · omega
  · omega
  · omega
  · intro h
    exact ⟨⟨power / 48 / 256, by omega, by omega⟩, by omega⟩
  · intro h
    subst h
    decide

/-- Witness for C11: power 12288 at counter 2 wraps to byte 0. -/
theorem control_byte_wrap_witness :
    ∃ byte : Nat,
      frames (SetPower 12288 (SetPower 7 (SetPower 100 (init 0)).1).1).2
          = [{ canId := 0x10720099, data := [0x02, byte, 0, 0, 0, 0, 0, 0], len := 5 }]
        ∧ byte < 256
        ∧ (byte = 12288 / 48 ↔ 12288 / 48 ≤ 255)
        ∧ (12288 / 48 ≤ 255 ↔ 12288 ≤ 12287)
        ∧ (255 < 12288 / 48 →
            (∃ k : Nat, 1 ≤ k ∧ byte + 256 * k = 12288 / 48) ∧ byte ≠ 12288 / 48)
        ∧ (12288 = 12288 → byte = 0) :=
  control_byte_wrap (SetPower 7 (SetPower 100 (init 0)).1).1 12288 rfl rfl (by decide) (by decide)

/-- The three ways `GetTemperature` returns: at iteration 0 with `minTemp`, after
the loop with `maxTemp`, or inside bracket `i` with the interpolated value. -/
theorem GetTemperature_cases (r : Nat) :
    (2950 ≤ r ∧ GetTemperature r = some 0)
      ∨ (r < 300 ∧ GetTemperature r = some 80)
      ∨ ∃ i, 1 ≤ i ∧ i ≤ 16 ∧ lut.getD i 0 ≤ r ∧ r < lut.getD (i - 1) 0 ∧
          GetTemperature r
            = some ((i : ℚ) * 5
                - 5 * ((lut.getD i 0 : ℚ) - (r : ℚ))
                    / ((lut.getD i 0 : ℚ) - (lut.getD (i - 1) 0 : ℚ))) := by
  by_cases hhi : 2950 ≤ r
  · left
    exact ⟨hhi, by simp [GetTemperature, lut, scan, hhi, minTemp]⟩
  · by_cases hlo : r < 300
    · right
      left
      have := scan_below r lut 0 none (fun x hx => by simp [lut] at hx; omega)
      exact ⟨hlo, by simpa [GetTemperature, maxTemp] using this⟩
    · right
      right
      obtain ⟨i, hi, hle, hleast⟩ := least_index_exists r (Nat.not_lt.mp hlo)
      obtain ⟨hge, hprev, hval⟩ :=
        GetTemperature_of_least r i (Nat.not_le.mp hhi) hi hle hleast
      have ht : tabSize = 17 := rfl
      exact ⟨i, hge, by omega, hle, hprev, hval⟩

/-- `GetTemperature` returns a value for every sample. -/
theorem GetTemperature_total (r : Nat) : ∃ t : ℚ, GetTemperature r = some t := by
  rcases GetTemperature_cases r with h | h | ⟨i, _, _, _, _, h⟩
  · exact ⟨_, h.2⟩
  · exact ⟨_, h.2⟩
  · exact ⟨_, h⟩

/-- `SetTargetTemperature` returns, with an empty trace, and changes `tempController` only. -/
theorem SetTargetTemperature_spec (temp : ℚ) (digit : Nat) (m : Machine) :
    ∃ t : ℚ, GetTemperature digit = some t ∧
      SetTargetTemperature temp digit m
        = some ({ m with heater :=
            { m.heater with
              tempController :=
                m.heater.tempController ++ [PiCall.SetRef temp, PiCall.Run t] } }, []) := by
  obtain ⟨t, ht⟩ := GetTemperature_total digit
  exact ⟨t, ht, by simp [SetTargetTemperature, ht]⟩

/-- C12. `SetPower` and `SetTargetTemperature` (which always returns) leave
`reportedPower` as it was, for every state and argument; so does `HandleRx`
with an identifier other than 0x1047809D; `HandleRx` with 0x1047809D stores
48 times byte 1 of the frame. -/
theorem reportedPower_only_from_telemetry (m : Machine) :
    (∀ power : Nat, (SetPower power m).1.heater.reportedPower = m.heater.reportedPower)
      ∧ (∀ (temp : ℚ) (digit : Nat), ∃ r : Machine × List Event,
          SetTargetTemperature temp digit m = some r
            ∧ r.1.heater.reportedPower = m.heater.reportedPower
            ∧ GetPower r.1 = GetPower m)
      ∧ (∀ canId data0 data1 dlc : Nat, canId ≠ 0x1047809D →
          (HandleRx canId data0 data1 dlc m).heater.reportedPower = m.heater.reportedPower)
      ∧ (∀ data0 data1 dlc : Nat,
          (HandleRx 0x1047809D data0 data1 dlc m).heater.reportedPower
            = 48 * (data0 / 256 % 256)) := by
  refine ⟨fun power => SetPower_reportedPower power m, fun temp digit => ?_,
    fun canId data0 data1 dlc hid => ?_, fun data0 data1 dlc => ?_⟩
  · obtain ⟨t, _, h⟩ := SetTargetTemperature_spec temp digit m
    exact ⟨_, h, rfl, rfl⟩
  · simp [HandleRx, hid]
  · have hmod : data0 / 256 % 256 * 48 % 65536 = 48 * (data0 / 256 % 256) := by omega
    simp [HandleRx, hmod]

/-- Witness for C12: a state with `reportedPower = 384`, commands with power
1440 and target 21 at sample 1500, a frame with identifier 0x621, and a
telemetry frame with byte 1 equal to 10. -/
theorem reportedPower_only_from_telemetry_witness :
    (SetPower 1440 (init 384)).1.heater.reportedPower = 384
      ∧ (∃ r : Machine × List Event,
          SetTargetTemperature 21 1500 (init 384) = some r
            ∧ r.1.heater.reportedPower = (init 384).heater.reportedPower
            ∧ GetPower r.1 = GetPower (init 384))
      ∧ (HandleRx 0x621 0x0A00 0 8 (init 384)).heater.reportedPower = 384
      ∧ (HandleRx 0x1047809D 0x0A00 0 8 (init 384)).heater.reportedPower = 480 :=
  ⟨(reportedPower_only_from_telemetry (init 384)).1 1440,
    (reportedPower_only_from_telemetry (init 384)).2.1 21 1500,
    (reportedPower_only_from_telemetry (init 384)).2.2.1 0x621 0x0A00 0 8 (by decide),
    (reportedPower_only_from_telemetry (init 384)).2.2.2 0x0A00 0 8⟩

/-- Heater effects of a concatenated task trace. -/
theorem heaterEvents_append (xs ys : List TaskEvent) :
    heaterEvents (xs ++ ys) = heaterEvents xs ++ heaterEvents ys := by
  induction xs with
  | nil => rfl
  | cons x xs ih => cases x <;> simp [heaterEvents, ih]

/-- One run of `Ms100Task` returns, has no heater effect, and leaves `isAwake`
and the counter as they were. -/
theorem Ms100Task_spec (inp : TaskInput) (m : Machine) :
    ∃ r : Machine × List TaskEvent, Ms100Task inp m = some r
      ∧ heaterEvents r.2 = []
      ∧ r.1.heater.isAwake = m.heater.isAwake
      ∧ r.1.ampera_msg_cnt = m.ampera_msg_cnt := by
  obtain ⟨t1, _, h1⟩ := SetTargetTemperature_spec inp.targetemp inp.digit1 m
  obtain ⟨t3, h3⟩ := GetTemperature_total inp.digit3
  simp only [Ms100Task, h1, h3]
  refine ⟨_, rfl, ?_, rfl, rfl⟩
  by_cases hp : inp.maxpower > 500 <;> simp [heaterEvents, hp]

/-- C13. `SetTargetTemperature` always returns, with an empty trace (no frame, no
transceiver mode change), and leaves `isAwake` and the counter unchanged; any
number of consecutive runs of `Ms100Task` has no heater effect at all (no frame
on the heater's CAN interface, no transceiver mode change) and leaves `isAwake`
and the counter unchanged. -/
theorem regulator_output_discarded (m : Machine) :
    (∀ (temp : ℚ) (digit : Nat), ∃ r : Machine × List Event,
        SetTargetTemperature temp digit m = some r
          ∧ r.2 = [] ∧ frames r.2 = [] ∧ modeChanges r.2 = []
          ∧ r.1.heater.isAwake = m.heater.isAwake
          ∧ r.1.ampera_msg_cnt = m.ampera_msg_cnt)
      ∧ (∀ inputs : List TaskInput, ∃ r : Machine × List TaskEvent,
        runMs100Task inputs m = some r
          ∧ heaterEvents r.2 = [] ∧ frames (heaterEvents r.2) = []
          ∧ r.1.heater.isAwake = m.heater.isAwake
          ∧ r.1.ampera_msg_cnt = m.ampera_msg_cnt) := by
  constructor
  · intro temp digit
    obtain ⟨t, _, h⟩ := SetTargetTemperature_spec temp digit m
    exact ⟨_, h, rfl, rfl, rfl, rfl, rfl⟩
  · intro inputs
    induction inputs generalizing m with
    | nil => exact ⟨(m, []), rfl, rfl, rfl, rfl, rfl⟩
    | cons inp rest ih =>
      obtain ⟨r, hr, hev, haw, hcnt⟩ := Ms100Task_spec inp m
      obtain ⟨rs, hrs, hevs, _, haws, hcnts⟩ := ih r.1
      refine ⟨(rs.1, r.2 ++ rs.2), by simp only [runMs100Task, hr, hrs], ?_, ?_,
        haws.trans haw, hcnts.trans hcnt⟩
      · simp [heaterEvents_append, hev, hevs]
      · simp [heaterEvents_append, hev, hevs, frames]

/-- C14. In every state reachable from construction by `SetPower`,
`SetTargetTemperature` and `HandleRx` calls the counter is below 6, and every
non-zero `SetPower` call there sends a frame that is a row of the six-step table. -/
theorem cnt_invariant (m : Machine) (hr : Reachable m) :
    m.ampera_msg_cnt < 6
      ∧ ∀ power : Nat, power ≠ 0 → power < 65536 →
          ∃ n : Nat, n < 6 ∧ ∃ f : Frame, f ∈ frames (SetPower power m).2
            ∧ specCycleRow power n = some (f.canId, f.len, f.payload) := by
  have hlt := hr.cnt_lt
  refine ⟨hlt, fun power hp _ => ?_⟩
  obtain ⟨cnt, ht⟩ := m
  simp only at hlt
  by_cases ha : ht.isAwake = false
  · exact ⟨0, by decide, by simp [SetPower, hp, ha, SendWakeup, frames, specCycleRow, Frame.payload]⟩
  · refine ⟨cnt, hlt, ?_⟩
    interval_cases cnt <;> simp [SetPower, hp, ha, frames, specCycleRow, Frame.payload]

/-- Witness for C14: the state reached by wake-up, a telemetry frame and a
zero-power call. -/
theorem cnt_invariant_witness :
    (SetPower 0 (HandleRx 0x1047809D 0x0800 0 3 (SetPower 100 (init 0)).1)).1.ampera_msg_cnt < 6
      ∧ ∃ n : Nat, n < 6 ∧ ∃ f : Frame,
          f ∈ frames (SetPower 1440
              (SetPower 0 (HandleRx 0x1047809D 0x0800 0 3 (SetPower 100 (init 0)).1)).1).2
            ∧ specCycleRow 1440 n = some (f.canId, f.len, f.payload) :=
  ⟨(cnt_invariant _
      (Reachable.setPower _ 0 (by decide)
        (Reachable.handleRx _ 0x1047809D 0x0800 0 3
          (Reachable.setPower _ 100 (by decide) (Reachable.init 0 (by decide)))))).1,
    (cnt_invariant _
      (Reachable.setPower _ 0 (by decide)
        (Reachable.handleRx _ 0x1047809D 0x0800 0 3
          (Reachable.setPower _ 100 (by decide) (Reachable.init 0 (by decide)))))).2
      1440 (by decide) (by decide)⟩

/-- The table is strictly descending: a later entry is below every earlier one. -/
theorem lut_strict_anti (i j : Nat) (hj : j < i) (hi : i < 17) :
    lut.getD i 0 < lut.getD j 0 := by
  have h : ∀ i, i < 17 → ∀ j, j < i → lut.getD i 0 < lut.getD j 0 := by decide
  exact h i hi j hj

/-- C15. The table is strictly descending (`lut[i] < lut[i-1]` for `i` in 1..16),
so the divisor `cur - last` of any bracket is non-zero; `GetTemperature` returns
a value for every sample, that is, it never divides by zero and never reads
`last` unassigned; and the result does not depend on what `last` holds on
entry, since iteration 0 returns without reading it. -/
theorem interpolation_total :
    (∀ i : Nat, 1 ≤ i → i ≤ 16 → lut.getD i 0 < lut.getD (i - 1) 0)
      ∧ (∀ i : Nat, 1 ≤ i → i ≤ 16 → (lut.getD i 0 : ℤ) - (lut.getD (i - 1) 0 : ℤ) ≠ 0)
      ∧ (∀ digit : Nat, ∃ t : ℚ, GetTemperature digit = some t)
      ∧ (∀ (digit : Nat) (last : Option Nat), scan digit 0 last lut = GetTemperature digit) := by
  have hdesc : ∀ i : Nat, 1 ≤ i → i ≤ 16 → lut.getD i 0 < lut.getD (i - 1) 0 :=
    fun i h1 h16 => lut_strict_anti i (i - 1) (by omega) (by omega)
  refine ⟨hdesc, fun i h1 h16 => ?_, GetTemperature_total, fun digit last => ?_⟩
  · have := hdesc i h1 h16
    omega
  · unfold GetTemperature
    rw [lut_eq]
    by_cases h : 2950 ≤ digit
    · simp [scan, h]
    · rw [scan_cons_gt digit 0 2950 last _ (Nat.not_le.mp h),
        scan_cons_gt digit 0 2950 none _ (Nat.not_le.mp h)]

/-- Witness for C15: the last bracket (`i = 16`), the sample 1500, and the loop
entered with `last` holding 300. -/
theorem interpolation_total_witness :
    lut.getD 16 0 < lut.getD (16 - 1) 0
      ∧ (lut.getD 16 0 : ℤ) - (lut.getD (16 - 1) 0 : ℤ) ≠ 0
      ∧ (∃ t : ℚ, GetTemperature 1500 = some t)
      ∧ scan 1500 0 (some 300) lut = GetTemperature 1500 :=
  ⟨interpolation_total.1 16 (by decide) (by decide),
    interpolation_total.2.1 16 (by decide) (by decide),
    interpolation_total.2.2.1 1500,
    interpolation_total.2.2.2 1500 (some 300)⟩

/-- C17. At each of the 17 thresholds `lut[i]` the result is exactly `5 * i`. -/
theorem calibration_points_exact (i : Nat) (hi : i < tabSize) :
    GetTemperature (lut.getD i 0) = some (5 * (i : ℚ)) := by
  have ht : tabSize = 17 := rfl
  rw [ht] at hi
  rcases Nat.eq_zero_or_pos i with h0 | hpos
  · subst h0
    simp [GetTemperature, lut, scan, minTemp]
  · have hlt : lut.getD i 0 < 2950 := lut_strict_anti i 0 hpos hi
    obtain ⟨_, _, hval⟩ := GetTemperature_of_least (lut.getD i 0) i hlt (by rw [ht]; exact hi)
      (le_refl _) (fun j hj => lut_strict_anti i j hj hi)
    rw [hval]
    simp [mul_comm]

/-- Witness for C17: the threshold 370 (`i = 15`) gives 75. -/
theorem calibration_points_exact_witness :
    GetTemperature (lut.getD 15 0) = some (5 * ((15 : Nat) : ℚ)) :=
  calibration_points_exact 15 (by decide)

/-- C18. For every sample `GetTemperature` returns a value `t` with `0 ≤ t ≤ 80`,
in exact rational arithmetic. -/
theorem GetTemperature_range (r : Nat) :
    ∃ t : ℚ, GetTemperature r = some t ∧ 0 ≤ t ∧ t ≤ 80 := by
  rcases GetTemperature_cases r with h | h | ⟨i, h1, h16, hle, hprev, hval⟩
  · exact ⟨0, h.2, le_refl _, by norm_num⟩
  · exact ⟨80, h.2, by norm_num, le_refl _⟩
  · have hb := interpolation_bounds (i : ℚ) (lut.getD i 0 : ℚ) (lut.getD (i - 1) 0 : ℚ) (r : ℚ)
      (by exact_mod_cast hle) (by exact_mod_cast hprev)
    have hi1 : (1 : ℚ) ≤ (i : ℚ) := by exact_mod_cast h1
    have hi16 : (i : ℚ) ≤ 16 := by exact_mod_cast h16
    exact ⟨_, hval, by linarith [hb.1], by linarith [hb.2]⟩

/-- C16. From a reachable awake state with counter `n`, six consecutive
non-zero `SetPower` calls bring the state back to where it was (awake, counter
`n`), send one frame per call, never the wake frame and never switch to
high-voltage mode, and send each of the six cycle identifiers exactly once, in
cycle order starting at row `n`; in particular 0x621 is sent exactly once. -/
theorem cycle_periodic (m : Machine) (ps : List Nat) (hr : Reachable m)
    (ha : m.heater.isAwake = true) (hlen : ps.length = 6)
    (hnz : ∀ p ∈ ps, p ≠ 0 ∧ p < 65536) :
    (runSetPower ps m).1 = m
      ∧ (runSetPower ps m).2.map (fun tr => (frames tr).length) = [1, 1, 1, 1, 1, 1]
      ∧ 0x100 ∉ frameIds (runSetPower ps m).2
      ∧ (∀ tr ∈ (runSetPower ps m).2, Event.sw_mode0_Clear ∉ tr)
      ∧ (∀ id ∈ cycleIds, (frameIds (runSetPower ps m).2).count id = 1)
      ∧ (frameIds (runSetPower ps m).2).count 0x621 = 1
      ∧ frameIds (runSetPower ps m).2
          = (List.range 6).map (fun k => cycleIds.getD ((m.ampera_msg_cnt + k) % 6) 0) := by
  have hlt := hr.cnt_lt
  obtain ⟨cnt, ht⟩ := m
  simp only at hlt ha
  match ps, hlen, hnz with
  | [p1, p2, p3, p4, p5, p6], _, hnz =>
    have h1 : p1 ≠ 0 := (hnz p1 (by simp)).1
    have h2 : p2 ≠ 0 := (hnz p2 (by simp)).1
    have h3 : p3 ≠ 0 := (hnz p3 (by simp)).1
    have h4 : p4 ≠ 0 := (hnz p4 (by simp)).1
    have h5 : p5 ≠ 0 := (hnz p5 (by simp)).1
    have h6 : p6 ≠ 0 := (hnz p6 (by simp)).1
    interval_cases cnt <;>
      simp [runSetPower, SetPower, frames, frameIds, cycleIds, ha, h1, h2, h3, h4, h5, h6] <;>
      decide

/-- Witness for C16: six calls from the awake state with counter 2 reached by
two calls after construction. -/
theorem cycle_periodic_witness :
    (runSetPower [1440, 600, 1, 65535, 48, 6000] (SetPower 7 (SetPower 100 (init 0)).1).1).1
        = (SetPower 7 (SetPower 100 (init 0)).1).1
      ∧ frameIds
          (runSetPower [1440, 600, 1, 65535, 48, 6000] (SetPower 7 (SetPower 100 (init 0)).1).1).2
        = [0x10720099, 0x102CC040, 0x13FFE060, 0x10242040, 0x621, 0x102740CB] :=
  ⟨(cycle_periodic (SetPower 7 (SetPower 100 (init 0)).1).1 [1440, 600, 1, 65535, 48, 6000]
      (Reachable.setPower _ 7 (by decide)
        (Reachable.setPower _ 100 (by decide) (Reachable.init 0 (by decide))))
      rfl rfl (by decide)).1,
    (cycle_periodic (SetPower 7 (SetPower 100 (init 0)).1).1 [1440, 600, 1, 65535, 48, 6000]
      (Reachable.setPower _ 7 (by decide)
        (Reachable.setPower _ 100 (by decide) (Reachable.init 0 (by decide))))
      rfl rfl (by decide)).2.2.2.2.2.2⟩

/-- C19. The power byte of the control frame sent at counter 2 for a power in
1..12287, delivered back as byte 1 of a telemetry frame with identifier
0x1047809D (to the heater in any state `m2`), makes `GetPower` equal to
`48 * (power / 48)`, which is at most `power` and more than `power - 48`; it is
`power` itself when `power` is a multiple of 48. -/
theorem command_telemetry_round_trip (m m2 : Machine) (power data0 data1 dlc : Nat)
    (ha : m.heater.isAwake = true) (hn : m.ampera_msg_cnt = 2)
    (hp : 0 < power) (hmax : power ≤ 12287) :
    ∃ (f : Frame) (byte : Nat),
      frames (SetPower power m).2 = [f]
        ∧ f.canId = 0x10720099
        ∧ f.payload.get? 1 = some byte
        ∧ (data0 / 256 % 256 = byte →
            GetPower (HandleRx 0x1047809D data0 data1 dlc m2) = ((48 * (power / 48) : Nat) : ℚ)
              ∧ GetPower (HandleRx 0x1047809D data0 data1 dlc m2) ≤ (power : ℚ)
              ∧ (power : ℚ) < GetPower (HandleRx 0x1047809D data0 data1 dlc m2) + 48
              ∧ (power % 48 = 0 →
                  GetPower (HandleRx 0x1047809D data0 data1 dlc m2) = (power : ℚ))) := by
  obtain ⟨cnt, ht⟩ := m
  simp only at hn ha
  subst hn
  have hp0 : power ≠ 0 := Nat.pos_iff_ne_zero.mp hp
  refine ⟨{ canId := 0x10720099, data := [0x02, power / 48 % 256, 0, 0, 0, 0, 0, 0], len := 5 },
    power / 48 % 256, by simp [SetPower, hp0, ha, frames], rfl, by simp [Frame.payload], ?_⟩
  intro hb
  have hq : power / 48 % 256 = power / 48 := by omega
  have hmod : data0 / 256 % 256 * 48 % 65536 = 48 * (power / 48) := by omega
  have hval : GetPower (HandleRx 0x1047809D data0 data1 dlc m2)
      = ((48 * (power / 48) : Nat) : ℚ) := by
    simp only [HandleRx, GetPower, if_true, hmod]
  rw [hval]
  refine ⟨rfl, ?_, ?_, fun hm => ?_⟩
  · exact_mod_cast (by omega : 48 * (power / 48) ≤ power)
  · exact_mod_cast (by omega : power < 48 * (power / 48) + 48)
  · exact_mod_cast (by omega : 48 * (power / 48) = power)

/-- Witness for C19: power 1441 at counter 2; the telemetry word 0x1E00 carries byte 30. -/
theorem command_telemetry_round_trip_witness :
    ∃ (f : Frame) (byte : Nat),
      frames (SetPower 1441 (SetPower 7 (SetPower 100 (init 0)).1).1).2 = [f]
        ∧ f.canId = 0x10720099
        ∧ f.payload.get? 1 = some byte
        ∧ (0x1E00 / 256 % 256 = byte →
            GetPower (HandleRx 0x1047809D 0x1E00 0 3 (init 0)) = ((48 * (1441 / 48) : Nat) : ℚ)
              ∧ GetPower (HandleRx 0x1047809D 0x1E00 0 3 (init 0)) ≤ ((1441 : Nat) : ℚ)
              ∧ ((1441 : Nat) : ℚ) < GetPower (HandleRx 0x1047809D 0x1E00 0 3 (init 0)) + 48
              ∧ (1441 % 48 = 0 →
                  GetPower (HandleRx 0x1047809D 0x1E00 0 3 (init 0)) = ((1441 : Nat) : ℚ))) :=
  command_telemetry_round_trip (SetPower 7 (SetPower 100 (init 0)).1).1 (init 0) 1441 0x1E00 0 3
    rfl rfl (by decide) (by decide)

/-! ## Two instances and the shared counter -/

/-- C20, as stated, fails. Two instances after construction; `a` is driven twice
(counter 2, so `a` would send row 2, 0x10720099, next); one non-zero
`SetPower` on `b` wakes `b` and leaves the shared counter at 1, and `a` then
sends row 1, 0x102740CB, instead. -/
theorem shared_counter_counterexample :
    (SetPowerOnA 1440 (SetPowerOnA 1440 (initTwo 0 0)).1).1.ampera_msg_cnt = 2
      ∧ (SetPowerOnB 1440 (SetPowerOnA 1440 (SetPowerOnA 1440 (initTwo 0 0)).1).1).1.ampera_msg_cnt
          = 1
      ∧ (frames (SetPowerOnA 1440 (SetPowerOnA 1440 (SetPowerOnA 1440 (initTwo 0 0)).1).1).2).map
            Frame.canId = [0x10720099]
      ∧ (frames (SetPowerOnA 1440
            (SetPowerOnB 1440 (SetPowerOnA 1440 (SetPowerOnA 1440 (initTwo 0 0)).1).1).1).2).map
            Frame.canId = [0x102740CB]
      ∧ ¬ ∀ (w : TwoHeaters) (power : Nat),
          (SetPowerOnB power w).1.ampera_msg_cnt = w.ampera_msg_cnt := by
  refine ⟨?_, ?_, ?_, ?_, ?_⟩
  · simp [SetPowerOnA, SetPower, initTwo, init]
  · simp [SetPowerOnA, SetPowerOnB, SetPower, initTwo, init]
  · simp [SetPowerOnA, SetPower, initTwo, init, frames]
  · simp [SetPowerOnA, SetPowerOnB, SetPower, initTwo, init, frames]
  · intro h
    have := h (SetPowerOnA 1440 (SetPowerOnA 1440 (initTwo 0 0)).1).1 1440
    simp [SetPowerOnA, SetPowerOnB, SetPower, initTwo, init] at this

/-- C20, amended. The counter is one static shared by both instances. A
`SetPower` call on `b` never changes the members of `a`; `SetPower(0)` on `b`
leaves the counter as it was; a non-zero call on `b` leaves the counter at 1
when `b` was not awake and at `(n + 1) mod 6` when `b` was awake at counter
`n < 6`; when `a` is not awake, its next non-zero call (wake-up, then step 0)
has the same trace whatever was called on `b`. -/
theorem shared_counter (w : TwoHeaters) (power : Nat) :
    (SetPowerOnB power w).1.a = w.a
      ∧ (SetPowerOnB 0 w).1.ampera_msg_cnt = w.ampera_msg_cnt
      ∧ (power ≠ 0 → w.b.isAwake = false → (SetPowerOnB power w).1.ampera_msg_cnt = 1)
      ∧ (power ≠ 0 → w.b.isAwake = true → w.ampera_msg_cnt < 6 →
          (SetPowerOnB power w).1.ampera_msg_cnt = (w.ampera_msg_cnt + 1) % 6)
      ∧ (w.a.isAwake = false → ∀ q : Nat, q ≠ 0 →
          (SetPowerOnA q (SetPowerOnB power w).1).2 = (SetPowerOnA q w).2) := by
  obtain ⟨cnt, a, b⟩ := w
  refine ⟨rfl, by simp [SetPowerOnB, SetPower], fun hp hb => ?_, fun hp hb hlt => ?_,
    fun haa q hq => ?_⟩
  · simp only at hb
    simp [SetPowerOnB, SetPower, hp, hb]
  · simp only at hb hlt
    interval_cases cnt <;> simp [SetPowerOnB, SetPower, hp, hb]
  · simp only at haa
    simp [SetPowerOnA, SetPowerOnB, SetPower, hq, haa]

/-- Witness for C20, amended: a non-zero call on `b` (not awake) after two calls
on `a`, and a call on `b` while `a` is not awake. -/
theorem shared_counter_witness :
    (SetPowerOnB 1440 (SetPowerOnA 1440 (SetPowerOnA 1440 (initTwo 0 0)).1).1).1.a
        = (SetPowerOnA 1440 (SetPowerOnA 1440 (initTwo 0 0)).1).1.a
      ∧ (SetPowerOnB 1440 (SetPowerOnA 1440 (SetPowerOnA 1440 (initTwo 0 0)).1).1).1.ampera_msg_cnt
          = 1
      ∧ (SetPowerOnB 600 (SetPowerOnB 1440 (initTwo 0 0)).1).1.ampera_msg_cnt = (1 + 1) % 6
      ∧ (SetPowerOnA 7 (SetPowerOnB 1440 (initTwo 0 0)).1).2 = (SetPowerOnA 7 (initTwo 0 0)).2 :=
  ⟨(shared_counter (SetPowerOnA 1440 (SetPowerOnA 1440 (initTwo 0 0)).1).1 1440).1,
    (shared_counter (SetPowerOnA 1440 (SetPowerOnA 1440 (initTwo 0 0)).1).1 1440).2.2.1
      (by decide) rfl,
    (shared_counter (SetPowerOnB 1440 (initTwo 0 0)).1 600).2.2.2.1 (by decide) rfl (by decide),
    (shared_counter (initTwo 0 0) 1440).2.2.2.2 rfl 7 (by decide)⟩

end AmperaHeater
